import Mathlib

/-!
Verification of the VocalTwin synthesis orchestration layer
(`src/synthesizer.py`, entry point `main.py`).

The synthesizer is embedded shallowly:

* the three external collaborators (MeloTTS base rendering, the
  OpenVoice speaker-embedding extractor, the tone-colour converter) are a
  record of fallible functions (`Collaborators`); audio clips and
  embeddings are opaque `Nat` identifiers;
* `TextToSpeechSynthesizer.__init__` is `mkSynthesizer`: converter
  initialisation, the `target_se.pth` existence guard, and MeloTTS
  initialisation, in source order, each fallible;
* `TextToSpeechSynthesizer.synthesize` is `synthesize`: output-directory
  creation, recursive `*.txt` discovery, and the per-document loop.  The
  Python loop has no exception handler around `_process_file`, so an
  errored document stops the fold (`runDocs`) exactly as an uncaught
  exception aborts the Python loop;
* `TextToSpeechSynthesizer._process_file` is `process_file`: the trim
  guard, then inside one temporary-directory scope the three pipeline
  stages.  The `with tempfile.TemporaryDirectory()` block removes the
  scope on every exit path, which the embedding records in a `TempScope`
  whose `removedAtEnd` field is set by the block builder
  `closedTempScope`;
* log calls are recorded structurally as `LogMsg` values carrying exactly
  the data interpolated into the corresponding Python format string.
-/

namespace VocalTwin

/-- Opaque identifier for an audio clip (the contents of a wav file). -/
abbrev Audio := Nat

/-- Opaque identifier for a speaker embedding tensor. -/
abbrev Embedding := Nat

/-- The per-item collaborator failures of the spec's error taxonomy:
`EngineError` from MeloTTS, `ExtractionError` from the SE extractor,
`ConversionError` from the tone-colour converter. -/
inductive CollabError
  | engineError
  | extractionError
  | conversionError
  deriving DecidableEq, Repr

/-- The three external collaborators consumed by the synthesizer, as
fallible functions: `tts.tts_to_file` (text to base clip),
`se_extractor.get_se` (clip to source embedding), and
`converter.convert` (source clip, source embedding, target embedding to
final clip). -/
structure Collaborators where
  ttsToFile : String → Except CollabError Audio
  getSe : Audio → Except CollabError Embedding
  convertTone : Audio → Embedding → Embedding → Except CollabError Audio

/-- One filesystem entry under `text_dir`, as enumerated recursively by
`Path.rglob`: its directory components below `text_dir`, its file name,
whether it is a regular file, and its text content. -/
structure FsEntry where
  dirComponents : List String
  name : String
  isFile : Bool
  content : String
  deriving DecidableEq, Repr

/-- The ASCII whitespace characters stripped by Python `str.strip()`
(space, tab, newline, carriage return, vertical tab, form feed). -/
def isPySpace (c : Char) : Bool :=
  c = ' ' || c = '\t' || c = '\n' || c = '\r' || c = '\x0B' || c = '\x0C'

/-- Python `str.strip()`: remove leading and trailing whitespace. -/
def pyStrip (s : String) : String :=
  String.mk (List.reverse (List.dropWhile isPySpace
    (List.reverse (List.dropWhile isPySpace s.toList))))

/-- The `rglob("*.txt")` name pattern: the file name ends in `.txt`
(the star matches any prefix, including the empty one). -/
def matchesTxtGlob (name : String) : Bool :=
  decide (name.toList.reverse.take 4 = ['t', 'x', 't', '.'])

/-- `_collect_txts`: recursively gather the `*.txt` regular files, in
discovery order. -/
def collect_txts (entries : List FsEntry) : List FsEntry :=
  entries.filter (fun p => matchesTxtGlob p.name && p.isFile)

/-- Index of the last occurrence of a dot in a character list. -/
def lastDotIdx : List Char → Option Nat
  | [] => none
  | c :: rest =>
    match lastDotIdx rest with
    | some j => some (j + 1)
    | none => if c = '.' then some 0 else none

/-- Python `txt_path.with_suffix(".wav").name`: a `Path` name has a
suffix when its last dot is neither the first nor the last character;
`with_suffix` drops that suffix and appends `.wav`, otherwise it appends
`.wav` to the whole name. -/
def withSuffixWav (name : String) : String :=
  let cs := name.toList
  let stem :=
    match lastDotIdx cs with
    | some i => if 0 < i ∧ i + 1 < cs.length then cs.take i else cs
    | none => cs
  String.mk stem ++ ".wav"

/-- The output file name of a document: `txt_path.with_suffix(".wav").name`,
computed from the file name alone (the directory components under
`text_dir` are discarded). -/
def outputName (doc : FsEntry) : String :=
  withSuffixWav doc.name

/-- One invocation of an external collaborator, recorded in source
order with the arguments the source passes. -/
inductive StageEvent
  | baseRender (text : String)
  | extract (audio : Audio)
  | convert (audio : Audio) (srcSe tgtSe : Embedding)
  deriving DecidableEq, Repr

/-- A structured log record: each constructor corresponds to one logging
call in `synthesizer.py` and carries exactly the data interpolated into
its format string. -/
inductive LogMsg
  | noTxtFound
  | foundCount (n : Nat)
  | synthesizing (name : String)
  | emptySkip (name : String)
  | allDone (outputDir : String)
  deriving DecidableEq, Repr

/-- How `_process_file` ended for one document: returned early on blank
text, raised a collaborator error, or completed. -/
inductive Outcome
  | skipped
  | errored (e : CollabError)
  | ok
  deriving DecidableEq, Repr

/-- The temporary-directory scope opened by
`with tempfile.TemporaryDirectory()`: the intermediate files created
inside it, and whether it was removed when the block exited. -/
structure TempScope where
  filesCreated : List String
  removedAtEnd : Bool
  deriving DecidableEq, Repr

/-- `tempfile.TemporaryDirectory` used as a context manager removes the
directory and everything inside it on every exit path, normal return and
propagating exception alike. -/
def closedTempScope (filesCreated : List String) : TempScope :=
  { filesCreated := filesCreated, removedAtEnd := true }

/-- One file written into `output_dir`: its name and audio content. -/
structure FileWrite where
  name : String
  data : Audio
  deriving DecidableEq, Repr

/-- Everything observable about one `_process_file` call: how it ended,
the collaborator invocations in order, the files written to
`output_dir`, the log records, and the temporary scope (absent when the
blank-text guard returned before the `with` block). -/
structure ProcResult where
  outcome : Outcome
  events : List StageEvent
  writes : List FileWrite
  logs : List LogMsg
  tempScope : Option TempScope
  deriving DecidableEq, Repr

/-- `_process_file`: trim the document text; return with a warning if it
is blank; otherwise, inside one temporary-directory scope, render the
base clip with MeloTTS, extract the source embedding from that clip, and
convert its tone colour to the target embedding, writing the result to
`output_dir` under the document's name with a `.wav` suffix.  A
collaborator failure propagates (no handler in the source), after the
scope is removed. -/
def process_file (C : Collaborators) (targetSe : Embedding) (doc : FsEntry) : ProcResult :=
  let text := pyStrip doc.content
  if text = "" then
    { outcome := .skipped, events := [], writes := [],
      logs := [.emptySkip doc.name], tempScope := none }
  else
    match C.ttsToFile text with
    | .error e =>
      { outcome := .errored e, events := [.baseRender text], writes := [],
        logs := [.synthesizing doc.name], tempScope := some (closedTempScope []) }
    | .ok baseAudio =>
      match C.getSe baseAudio with
      | .error e =>
        { outcome := .errored e,
          events := [.baseRender text, .extract baseAudio], writes := [],
          logs := [.synthesizing doc.name],
          tempScope := some (closedTempScope ["base.wav"]) }
      | .ok srcSe =>
        match C.convertTone baseAudio srcSe targetSe with
        | .error e =>
          { outcome := .errored e,
            events := [.baseRender text, .extract baseAudio,
                       .convert baseAudio srcSe targetSe],
            writes := [],
            logs := [.synthesizing doc.name],
            tempScope := some (closedTempScope ["base.wav"]) }
        | .ok finalAudio =>
          { outcome := .ok,
            events := [.baseRender text, .extract baseAudio,
                       .convert baseAudio srcSe targetSe],
            writes := [{ name := outputName doc, data := finalAudio }],
            logs := [.synthesizing doc.name],
            tempScope := some (closedTempScope ["base.wav"]) }

/-- Accumulated state of the `for tf in txt_files` loop. -/
structure BatchAcc where
  outcome : Except CollabError Unit
  perDoc : List ProcResult
  writes : List FileWrite
  logs : List LogMsg
  deriving Repr

/-- The document loop of `synthesize`.  There is no `try`/`except`
around `self._process_file(tf, output_dir)`, so a collaborator error
raised for one document propagates and the remaining documents are never
processed; skipped and completed documents let the loop continue. -/
def runDocs (C : Collaborators) (targetSe : Embedding) : List FsEntry → BatchAcc
  | [] => { outcome := .ok (), perDoc := [], writes := [], logs := [] }
  | d :: rest =>
    let r := process_file C targetSe d
    match r.outcome with
    | .errored e =>
      { outcome := .error e, perDoc := [r], writes := r.writes, logs := r.logs }
    | _ =>
      let acc := runDocs C targetSe rest
      { outcome := acc.outcome, perDoc := r :: acc.perDoc,
        writes := r.writes ++ acc.writes, logs := r.logs ++ acc.logs }

/-- Everything observable about one `synthesize` run: whether an
exception escaped, the per-document results in order, the output files
written in order, the log records, and whether `output_dir` was created
(`mkdir(parents=True, exist_ok=True)` always runs first). -/
structure RunResult where
  outcome : Except CollabError Unit
  perDoc : List ProcResult
  writes : List FileWrite
  logs : List LogMsg
  madeOutputDir : Bool
  deriving Repr

/-- `synthesize(text_dir, output_dir)`: create `output_dir`, discover
the `.txt` files recursively, log an error and return if there are none,
otherwise log the found count, process each file in order, and on normal
completion log the final summary naming `output_dir`. -/
def synthesize (C : Collaborators) (targetSe : Embedding) (outputDir : String)
    (entries : List FsEntry) : RunResult :=
  let txts := collect_txts entries
  if txts.isEmpty then
    { outcome := .ok (), perDoc := [], writes := [],
      logs := [.noTxtFound], madeOutputDir := true }
  else
    let acc := runDocs C targetSe txts
    let logs :=
      match acc.outcome with
      | .ok _ => LogMsg.foundCount txts.length :: (acc.logs ++ [.allDone outputDir])
      | .error _ => LogMsg.foundCount txts.length :: acc.logs
    { outcome := acc.outcome, perDoc := acc.perDoc, writes := acc.writes,
      logs := logs, madeOutputDir := true }

/-- Load the target speaker embedding in `__init__`:
`checkpoint_dir / "target_se.pth"` must exist, otherwise
`FileNotFoundError` is raised with a user-actionable message; on success
the stored `"se"` field is read.  The checkpoint directory is a list of
(file name, stored embedding) pairs. -/
def loadTargetSe (checkpointDirName : String)
    (files : List (String × Embedding)) : Except String Embedding :=
  match files.lookup "target_se.pth" with
  | none =>
    .error ("target_se.pth not found in " ++ checkpointDirName ++ ". Run trainer first.")
  | some se => .ok se

/-- A fully constructed `TextToSpeechSynthesizer`: the loaded target
embedding and the initialised collaborator instances. -/
structure Synthesizer where
  targetSe : Embedding
  collab : Collaborators

/-- `TextToSpeechSynthesizer.__init__`, in source order: tone-colour
converter initialisation (fallible, external), the `target_se.pth`
guard, MeloTTS initialisation (fallible, external).  Only a fully
constructed value can process documents. -/
def mkSynthesizer (C : Collaborators) (converterInit ttsInit : Except String Unit)
    (checkpointDirName : String) (checkpointFiles : List (String × Embedding)) :
    Except String Synthesizer :=
  match converterInit with
  | .error e => .error e
  | .ok _ =>
    match loadTargetSe checkpointDirName checkpointFiles with
    | .error e => .error e
    | .ok se =>
      match ttsInit with
      | .error e => .error e
      | .ok _ => .ok { targetSe := se, collab := C }

/-- The public method on a constructed synthesizer. -/
def Synthesizer.run (s : Synthesizer) (outputDir : String)
    (entries : List FsEntry) : RunResult :=
  synthesize s.collab s.targetSe outputDir entries

/-- State of `output_dir` as a name-to-content association list. -/
abbrev DirState := List (String × Audio)

/-- Writing a file replaces any existing file of the same name. -/
def applyWrite (dirState : DirState) (w : FileWrite) : DirState :=
  (dirState.filter (fun kv => kv.1 ≠ w.name)) ++ [(w.name, w.data)]

/-- Apply a sequence of writes to `output_dir`, earlier writes first. -/
def applyWrites (dirState : DirState) : List FileWrite → DirState
  | [] => dirState
  | w :: ws => applyWrites (applyWrite dirState w) ws

/-- Look a file name up in the `output_dir` state. -/
def dirLookup (n : String) : DirState → Option Audio
  | [] => none
  | (k, v) :: rest => if k = n then some v else dirLookup n rest

/-- Number of documents of a run that completed the full pipeline. -/
def countProcessed (r : RunResult) : Nat :=
  (r.perDoc.filter (fun p => p.outcome = .ok)).length

/-- Number of documents of a run that were skipped or failed. -/
def countSkippedOrFailed (r : RunResult) : Nat :=
  (r.perDoc.filter (fun p => p.outcome ≠ .ok)).length

/-- Concrete collaborators for evaluation: base audio is the text length,
the source embedding is audio plus 100, and tone-colour conversion fails
exactly on the clip with identifier 2 (the rendering of a two-character
text) and otherwise returns audio plus 1000. -/
def exCollab : Collaborators :=
  { ttsToFile := fun t => .ok t.length,
    getSe := fun a => .ok (a + 100),
    convertTone := fun a _ _ => if a = 2 then .error .conversionError else .ok (a + 1000) }

/-- Collaborators whose tone-colour conversion always fails. -/
def failConvCollab : Collaborators :=
  { ttsToFile := fun t => .ok t.length,
    getSe := fun a => .ok (a + 100),
    convertTone := fun _ _ _ => .error .conversionError }

/-- A two-character document: under `exCollab` its conversion fails. -/
def exDocA : FsEntry :=
  { dirComponents := [], name := "a.txt", isFile := true, content := "hi" }

/-- A four-character document in a subdirectory: under `exCollab` it
processes successfully. -/
def exDocB : FsEntry :=
  { dirComponents := ["sub"], name := "b.txt", isFile := true, content := "yolo" }

/-- A whitespace-only document: skipped by the blank-text guard. -/
def exDocBlank : FsEntry :=
  { dirComponents := [], name := "blank.txt", isFile := true, content := "   " }

/-- The naming-contract document of the spec. -/
def exDocHello : FsEntry :=
  { dirComponents := [], name := "hello.txt", isFile := true, content := "Hello world" }

/-- A document in a different subdirectory sharing `exDocHello`'s name. -/
def exDocHelloDeep : FsEntry :=
  { dirComponents := ["deep"], name := "hello.txt", isFile := true, content := "one" }

end VocalTwin

namespace VocalTwin

theorem process_file_blank (C : Collaborators) (se : Embedding) (d : FsEntry)
    (h : pyStrip d.content = "") :
    process_file C se d =
      { outcome := .skipped, events := [], writes := [],
        logs := [.emptySkip d.name], tempScope := none } := by
  simp [process_file, h]

theorem process_file_ok_inv (C : Collaborators) (se : Embedding) (d : FsEntry)
    (h : (process_file C se d).outcome = .ok) :
    ∃ a s f, C.ttsToFile (pyStrip d.content) = .ok a ∧ C.getSe a = .ok s ∧
      C.convertTone a s se = .ok f ∧
      process_file C se d =
        { outcome := .ok,
          events := [.baseRender (pyStrip d.content), .extract a, .convert a s se],
          writes := [{ name := outputName d, data := f }],
          logs := [.synthesizing d.name],
          tempScope := some (closedTempScope ["base.wav"]) } := by
  by_cases hb : pyStrip d.content = ""
  · rw [process_file_blank C se d hb] at h
    simp at h
  · unfold process_file at h ⊢
    simp only [if_neg hb] at h ⊢
    cases h1 : C.ttsToFile (pyStrip d.content) with
    | error e => simp [h1] at h
    | ok a =>
      cases h2 : C.getSe a with
      | error e => simp [h1, h2] at h
      | ok s =>
        cases h3 : C.convertTone a s se with
        | error e => simp [h1, h2, h3] at h
        | ok f => exact ⟨a, s, f, rfl, h2, h3, by simp [h1, h2, h3]⟩

theorem process_file_writes_of_not_ok (C : Collaborators) (se : Embedding) (d : FsEntry)
    (h : (process_file C se d).outcome ≠ .ok) :
    (process_file C se d).writes = [] := by
  by_cases hb : pyStrip d.content = ""
  · rw [process_file_blank C se d hb]
  · unfold process_file at h ⊢
    simp only [if_neg hb] at h ⊢
    cases h1 : C.ttsToFile (pyStrip d.content) with
    | error e => simp [h1]
    | ok a =>
      cases h2 : C.getSe a with
      | error e => simp [h1, h2]
      | ok s =>
        cases h3 : C.convertTone a s se with
        | error e => simp [h1, h2, h3]
        | ok f => simp [h1, h2, h3] at h

theorem runDocs_cons_error (C : Collaborators) (se : Embedding) (d : FsEntry)
    (rest : List FsEntry) (e : CollabError)
    (h : (process_file C se d).outcome = .errored e) :
    runDocs C se (d :: rest) =
      { outcome := .error e, perDoc := [process_file C se d],
        writes := (process_file C se d).writes,
        logs := (process_file C se d).logs } := by
  simp [runDocs, h]

theorem runDocs_cons_not_error (C : Collaborators) (se : Embedding) (d : FsEntry)
    (rest : List FsEntry)
    (h : ∀ e, (process_file C se d).outcome ≠ .errored e) :
    runDocs C se (d :: rest) =
      { outcome := (runDocs C se rest).outcome,
        perDoc := process_file C se d :: (runDocs C se rest).perDoc,
        writes := (process_file C se d).writes ++ (runDocs C se rest).writes,
        logs := (process_file C se d).logs ++ (runDocs C se rest).logs } := by
  cases ho : (process_file C se d).outcome with
  | skipped => simp [runDocs, ho]
  | errored e => exact absurd ho (h e)
  | ok => simp [runDocs, ho]

theorem runDocs_ok_front_then_error (C : Collaborators) (se : Embedding)
    (pre : List FsEntry) (d : FsEntry) (post : List FsEntry) (e : CollabError)
    (hpre : ∀ p ∈ pre, (process_file C se p).outcome = .ok)
    (hd : (process_file C se d).outcome = .errored e) :
    (runDocs C se (pre ++ d :: post)).outcome = .error e ∧
    (runDocs C se (pre ++ d :: post)).writes.length = pre.length := by
  induction pre with
  | nil =>
    rw [List.nil_append, runDocs_cons_error C se d post e hd]
    have hw := process_file_writes_of_not_ok C se d (by rw [hd]; intro hc; cases hc)
    simp [hw]
  | cons p ps ih =>
    have hp : (process_file C se p).outcome = .ok := hpre p (List.mem_cons_self p ps)
    have hrest := ih (fun q hq => hpre q (List.mem_cons_of_mem p hq))
    rw [List.cons_append, runDocs_cons_not_error C se p (ps ++ d :: post)
      (by rw [hp]; intro e' hc; cases hc)]
    obtain ⟨a, s, f, _, _, _, heq⟩ := process_file_ok_inv C se p hp
    simp [heq, hrest.1, hrest.2]

end VocalTwin

namespace VocalTwin

theorem collect_txts_not_isEmpty (entries : List FsEntry)
    (hne : collect_txts entries ≠ []) :
    (collect_txts entries).isEmpty = false := by
  cases hx : collect_txts entries with
  | nil => exact absurd hx hne
  | cons a l => rfl

theorem synthesize_of_error (C : Collaborators) (se : Embedding) (od : String)
    (entries : List FsEntry) (e : CollabError)
    (hne : collect_txts entries ≠ [])
    (he : (runDocs C se (collect_txts entries)).outcome = .error e) :
    synthesize C se od entries =
      { outcome := .error e,
        perDoc := (runDocs C se (collect_txts entries)).perDoc,
        writes := (runDocs C se (collect_txts entries)).writes,
        logs := LogMsg.foundCount (collect_txts entries).length ::
          (runDocs C se (collect_txts entries)).logs,
        madeOutputDir := true } := by
  have hb := collect_txts_not_isEmpty entries hne
  simp [synthesize, hb, he]

theorem synthesize_of_ok (C : Collaborators) (se : Embedding) (od : String)
    (entries : List FsEntry)
    (hne : collect_txts entries ≠ [])
    (hok : (runDocs C se (collect_txts entries)).outcome = .ok ()) :
    synthesize C se od entries =
      { outcome := .ok (),
        perDoc := (runDocs C se (collect_txts entries)).perDoc,
        writes := (runDocs C se (collect_txts entries)).writes,
        logs := LogMsg.foundCount (collect_txts entries).length ::
          ((runDocs C se (collect_txts entries)).logs ++ [LogMsg.allDone od]),
        madeOutputDir := true } := by
  have hb := collect_txts_not_isEmpty entries hne
  simp [synthesize, hb, hok]

theorem dirLookup_overwrite (n : String) (st : DirState) (v : Audio) :
    dirLookup n (applyWrite st { name := n, data := v }) = some v := by
  unfold applyWrite
  induction st with
  | nil => simp [dirLookup]
  | cons kv rest ih =>
    by_cases hk : kv.1 = n
    · simpa [List.filter_cons, hk] using ih
    · simpa [List.filter_cons, hk, dirLookup] using ih

end VocalTwin

namespace VocalTwin

/-- C1 counterexample: over two discovered documents where exactly the
first one's tone-colour conversion fails, the claim predicts a completed
run with N−1 = 1 output file; the code instead lets the conversion error
escape `synthesize`, processes only the first document, and writes no
output file at all. -/
theorem c1_counterexample :
    (process_file exCollab 0 exDocA).outcome = .errored .conversionError ∧
    (process_file exCollab 0 exDocB).outcome = .ok ∧
    (synthesize exCollab 0 "outputs" [exDocA, exDocB]).outcome =
      .error .conversionError ∧
    (synthesize exCollab 0 "outputs" [exDocA, exDocB]).perDoc.length = 1 ∧
    (synthesize exCollab 0 "outputs" [exDocA, exDocB]).writes.length = 0 ∧
    (synthesize exCollab 0 "outputs" [exDocA, exDocB]).writes.length ≠ 2 - 1 :=
  ⟨by rfl, by rfl, by rfl, by rfl, by rfl, by decide⟩

/-- C1 (amended): a collaborator failure while processing one document
aborts the batch: the error escapes `synthesize`, the documents before
the failing one are the only ones processed, and the run produces one
output file per successful predecessor (k−1 files when document k of N
fails), not N−1. -/
theorem c1_batch_aborts_on_failure (C : Collaborators) (se : Embedding) (od : String)
    (entries pre post : List FsEntry) (d : FsEntry) (e : CollabError)
    (hcoll : collect_txts entries = pre ++ d :: post)
    (hpre : ∀ p ∈ pre, (process_file C se p).outcome = .ok)
    (hd : (process_file C se d).outcome = .errored e) :
    (synthesize C se od entries).outcome = .error e ∧
    (synthesize C se od entries).writes.length = pre.length ∧
    (synthesize C se od entries).perDoc.length = pre.length + 1 := by
  have hrun := runDocs_ok_front_then_error C se pre d post e hpre hd
  have hne : collect_txts entries ≠ [] := by
    rw [hcoll]; exact List.append_ne_nil_of_right_ne_nil pre (List.cons_ne_nil d post)
  have hsh := synthesize_of_error C se od entries e hne (by rw [hcoll]; exact hrun.1)
  rw [hsh]
  refine ⟨rfl, by simpa [hcoll] using hrun.2, ?_⟩
  show (runDocs C se (collect_txts entries)).perDoc.length = pre.length + 1
  rw [hcoll]
  clear hrun hne hsh hcoll
  induction pre with
  | nil =>
    rw [List.nil_append, runDocs_cons_error C se d post e hd]
    rfl
  | cons p ps ih =>
    have hp : (process_file C se p).outcome = .ok := hpre p (List.mem_cons_self p ps)
    rw [List.cons_append, runDocs_cons_not_error C se p (ps ++ d :: post)
      (by rw [hp]; intro e' hc; cases hc)]
    simpa using ih (fun q hq => hpre q (List.mem_cons_of_mem p hq))

/-- C1 (amended) witness: two discovered documents, the successful one
first; the batch aborts at the second with one output file written. -/
theorem c1_batch_aborts_on_failure_witness :
    collect_txts [exDocB, exDocA] = [exDocB] ++ exDocA :: [] ∧
    (synthesize exCollab 0 "outputs" [exDocB, exDocA]).outcome =
      .error .conversionError ∧
    (synthesize exCollab 0 "outputs" [exDocB, exDocA]).writes.length = 1 ∧
    (synthesize exCollab 0 "outputs" [exDocB, exDocA]).perDoc.length = 1 + 1 :=
  ⟨by rfl,
   c1_batch_aborts_on_failure exCollab 0 "outputs" [exDocB, exDocA] [exDocB] []
     exDocA .conversionError (by rfl) (by decide) (by rfl)⟩

end VocalTwin

namespace VocalTwin

/-- C2: constructing a synthesizer against a checkpoint directory with
no `target_se.pth` never yields a synthesizer (so no document can be
processed, and no embedding is silently defaulted); when the converter
initialised, the failure is exactly the user-actionable
`FileNotFoundError` message telling the user to run training first. -/
theorem c2_missing_checkpoint_fatal (C : Collaborators)
    (converterInit ttsInit : Except String Unit)
    (dirName : String) (files : List (String × Embedding))
    (h : files.lookup "target_se.pth" = none) :
    (∀ s, mkSynthesizer C converterInit ttsInit dirName files ≠ .ok s) ∧
    (converterInit = .ok () →
      mkSynthesizer C converterInit ttsInit dirName files =
        .error ("target_se.pth not found in " ++ dirName ++ ". Run trainer first.")) := by
  constructor
  · intro s hs
    unfold mkSynthesizer at hs
    cases converterInit with
    | error e => simp at hs
    | ok u =>
      unfold loadTargetSe at hs
      rw [h] at hs
      simp at hs
  · rintro rfl
    unfold mkSynthesizer loadTargetSe
    rw [h]

/-- C2 witness: an empty checkpoint directory. -/
theorem c2_missing_checkpoint_fatal_witness :
    ([] : List (String × Embedding)).lookup "target_se.pth" = none ∧
    ((∀ s, mkSynthesizer exCollab (.ok ()) (.ok ()) "checkpoints" [] ≠ .ok s) ∧
     ((.ok () : Except String Unit) = .ok () →
       mkSynthesizer exCollab (.ok ()) (.ok ()) "checkpoints" [] =
         .error ("target_se.pth not found in " ++ "checkpoints" ++ ". Run trainer first."))) :=
  ⟨rfl, c2_missing_checkpoint_fatal exCollab (.ok ()) (.ok ()) "checkpoints" [] rfl⟩

/-- C3: on a non-blank document whose three collaborator calls succeed,
the stages run exactly once in source order with the documented data
flow: base rendering of the trimmed text, embedding extraction on the
base clip just produced, and tone-colour conversion of the base clip
with that source embedding and the loaded target embedding, writing the
final audio into `output_dir` under the derived name. -/
theorem c3_pipeline_stage_order (C : Collaborators) (se : Embedding) (d : FsEntry)
    (a s f : Nat)
    (hne : pyStrip d.content ≠ "")
    (h1 : C.ttsToFile (pyStrip d.content) = .ok a)
    (h2 : C.getSe a = .ok s)
    (h3 : C.convertTone a s se = .ok f) :
    (process_file C se d).events =
      [.baseRender (pyStrip d.content), .extract a, .convert a s se] ∧
    (process_file C se d).writes = [{ name := outputName d, data := f }] ∧
    (process_file C se d).outcome = .ok := by
  unfold process_file
  simp [if_neg hne, h1, h2, h3]

/-- C3 witness: the `hello.txt` document under the concrete
collaborators. -/
theorem c3_pipeline_stage_order_witness :
    pyStrip exDocHello.content ≠ "" ∧
    exCollab.ttsToFile (pyStrip exDocHello.content) = .ok 11 ∧
    exCollab.getSe 11 = .ok 111 ∧
    exCollab.convertTone 11 111 7 = .ok 1011 ∧
    ((process_file exCollab 7 exDocHello).events =
      [.baseRender (pyStrip exDocHello.content), .extract 11, .convert 11 111 7] ∧
     (process_file exCollab 7 exDocHello).writes =
       [{ name := outputName exDocHello, data := 1011 }] ∧
     (process_file exCollab 7 exDocHello).outcome = .ok) :=
  ⟨by decide, by rfl, by rfl, by rfl,
   c3_pipeline_stage_order exCollab 7 exDocHello 11 111 1011
     (by decide) (by rfl) (by rfl) (by rfl)⟩

/-- C4: a successfully processed document yields exactly one output
file, named by replacing the document's extension with `.wav`, and the
write replaces any file of that name already in `output_dir`. -/
theorem c4_output_naming (C : Collaborators) (se : Embedding) (d : FsEntry)
    (dirState : DirState)
    (h : (process_file C se d).outcome = .ok) :
    ∃ f, (process_file C se d).writes =
      [{ name := withSuffixWav d.name, data := f }] ∧
    dirLookup (withSuffixWav d.name)
      (applyWrites dirState (process_file C se d).writes) = some f := by
  obtain ⟨a, s, f, _, _, _, heq⟩ := process_file_ok_inv C se d h
  refine ⟨f, by rw [heq]; rfl, ?_⟩
  rw [heq]
  show dirLookup (withSuffixWav d.name)
    (applyWrite dirState { name := outputName d, data := f }) = some f
  exact dirLookup_overwrite (withSuffixWav d.name) dirState f

/-- C4 witness: `hello.txt` yields exactly `hello.wav`, replacing a
pre-existing `hello.wav` in the output directory. -/
theorem c4_output_naming_witness :
    (process_file exCollab 0 exDocHello).outcome = .ok ∧
    withSuffixWav exDocHello.name = "hello.wav" ∧
    (∃ f, (process_file exCollab 0 exDocHello).writes =
      [{ name := withSuffixWav exDocHello.name, data := f }] ∧
    dirLookup (withSuffixWav exDocHello.name)
      (applyWrites [("hello.wav", 999)]
        (process_file exCollab 0 exDocHello).writes) = some f) :=
  ⟨by rfl, by decide,
   c4_output_naming exCollab 0 exDocHello [("hello.wav", 999)] (by rfl)⟩

/-- C5: zero discovered `.txt` documents make `synthesize` a normal
no-op: it completes without error, writes nothing, processes zero
documents, and logs the no-files diagnostic. -/
theorem c5_empty_input_noop (C : Collaborators) (se : Embedding) (od : String)
    (entries : List FsEntry)
    (h : collect_txts entries = []) :
    synthesize C se od entries =
      { outcome := .ok (), perDoc := [], writes := [],
        logs := [.noTxtFound], madeOutputDir := true } := by
  simp [synthesize, h]

/-- C5 witness: a directory holding only a non-`.txt` file. -/
theorem c5_empty_input_noop_witness :
    collect_txts [{ dirComponents := [], name := "notes.md", isFile := true,
                    content := "x" }] = [] ∧
    synthesize exCollab 0 "outputs"
      [{ dirComponents := [], name := "notes.md", isFile := true, content := "x" }] =
      { outcome := .ok (), perDoc := [], writes := [],
        logs := [.noTxtFound], madeOutputDir := true } :=
  ⟨by rfl,
   c5_empty_input_noop exCollab 0 "outputs"
     [{ dirComponents := [], name := "notes.md", isFile := true, content := "x" }] (by rfl)⟩

end VocalTwin

namespace VocalTwin

/-- C6: a document whose content trims to the empty string is skipped
with a warning: no collaborator stage is invoked, no output file is
written, no temporary scope is even opened, and the batch loop carries
on unchanged over the remaining documents. -/
theorem c6_blank_document_skipped (C : Collaborators) (se : Embedding) (d : FsEntry)
    (rest : List FsEntry)
    (h : pyStrip d.content = "") :
    process_file C se d =
      { outcome := .skipped, events := [], writes := [],
        logs := [.emptySkip d.name], tempScope := none } ∧
    (runDocs C se (d :: rest)).outcome = (runDocs C se rest).outcome ∧
    (runDocs C se (d :: rest)).writes = (runDocs C se rest).writes := by
  have hp := process_file_blank C se d h
  have hne : ∀ e, (process_file C se d).outcome ≠ .errored e := by
    rw [hp]; intro e hc; cases hc
  refine ⟨hp, ?_, ?_⟩
  · rw [runDocs_cons_not_error C se d rest hne]
  · rw [runDocs_cons_not_error C se d rest hne, hp]
    rfl

/-- C6 witness: a whitespace-only document followed by a successful
one. -/
theorem c6_blank_document_skipped_witness :
    pyStrip exDocBlank.content = "" ∧
    (process_file exCollab 0 exDocBlank =
      { outcome := .skipped, events := [], writes := [],
        logs := [.emptySkip exDocBlank.name], tempScope := none } ∧
     (runDocs exCollab 0 (exDocBlank :: [exDocHello])).outcome =
       (runDocs exCollab 0 [exDocHello]).outcome ∧
     (runDocs exCollab 0 (exDocBlank :: [exDocHello])).writes =
       (runDocs exCollab 0 [exDocHello]).writes) :=
  ⟨by decide, c6_blank_document_skipped exCollab 0 exDocBlank [exDocHello] (by decide)⟩

/-- C7: whenever `_process_file` opens a temporary-directory scope for a
document, that scope — and with it every intermediate file created
inside it — is removed when the document's processing ends, on the
success path and on every collaborator-failure path alike. -/
theorem c7_temp_scope_removed (C : Collaborators) (se : Embedding) (d : FsEntry)
    (scope : TempScope)
    (h : (process_file C se d).tempScope = some scope) :
    scope.removedAtEnd = true := by
  by_cases hb : pyStrip d.content = ""
  · rw [process_file_blank C se d hb] at h
    simp at h
  · unfold process_file at h
    simp only [if_neg hb] at h
    cases h1 : C.ttsToFile (pyStrip d.content) with
    | error e =>
      simp only [h1] at h
      obtain rfl := Option.some.inj h
      rfl
    | ok a =>
      cases h2 : C.getSe a with
      | error e =>
        simp only [h1, h2] at h
        obtain rfl := Option.some.inj h
        rfl
      | ok s =>
        cases h3 : C.convertTone a s se with
        | error e =>
          simp only [h1, h2, h3] at h
          obtain rfl := Option.some.inj h
          rfl
        | ok f =>
          simp only [h1, h2, h3] at h
          obtain rfl := Option.some.inj h
          rfl

/-- C7 witness: the scope of the document whose conversion fails is
still removed. -/
theorem c7_temp_scope_removed_witness :
    (process_file exCollab 0 exDocA).tempScope =
      some (closedTempScope ["base.wav"]) ∧
    (process_file exCollab 0 exDocA).outcome = .errored .conversionError ∧
    (closedTempScope ["base.wav"]).removedAtEnd = true :=
  ⟨by rfl, by rfl,
   c7_temp_scope_removed exCollab 0 exDocA (closedTempScope ["base.wav"]) (by rfl)⟩

/-- C8: a non-empty batch in which every discovered document's
processing raises a collaborator error does not complete as a silently
empty success: `synthesize` ends with a propagated error (the caller's
non-zero signal) and writes no output file. -/
theorem c8_total_failure_signalled (C : Collaborators) (se : Embedding) (od : String)
    (entries : List FsEntry)
    (hne : collect_txts entries ≠ [])
    (hall : ∀ d ∈ collect_txts entries,
      ∃ e, (process_file C se d).outcome = .errored e) :
    (∃ e, (synthesize C se od entries).outcome = .error e) ∧
    (synthesize C se od entries).writes = [] := by
  cases hc : collect_txts entries with
  | nil => exact absurd hc hne
  | cons d rest =>
    obtain ⟨e, he⟩ := hall d (by rw [hc]; exact List.mem_cons_self d rest)
    have hrd : (runDocs C se (collect_txts entries)).outcome = .error e := by
      rw [hc, runDocs_cons_error C se d rest e he]
    have hw := process_file_writes_of_not_ok C se d (by rw [he]; intro hco; cases hco)
    have hsh := synthesize_of_error C se od entries e hne hrd
    rw [hsh]
    exact ⟨⟨e, rfl⟩, by rw [hc, runDocs_cons_error C se d rest e he]; exact hw⟩

/-- C8 witness: two documents, both failing conversion. -/
theorem c8_total_failure_signalled_witness :
    collect_txts [exDocA, exDocB] ≠ [] ∧
    ((∃ e, (synthesize failConvCollab 0 "outputs" [exDocA, exDocB]).outcome =
      .error e) ∧
     (synthesize failConvCollab 0 "outputs" [exDocA, exDocB]).writes = []) :=
  ⟨by decide,
   c8_total_failure_signalled failConvCollab 0 "outputs" [exDocA, exDocB] (by decide)
     (by
       intro d hd
       rw [show collect_txts [exDocA, exDocB] = [exDocA, exDocB] from rfl] at hd
       simp only [List.mem_cons, List.mem_singleton] at hd
       rcases hd with rfl | rfl | hd
       · exact ⟨.conversionError, by rfl⟩
       · exact ⟨.conversionError, by rfl⟩
       · cases hd)⟩

end VocalTwin

namespace VocalTwin

/-- C9 counterexample: two runs that differ in their processed and
skipped counts (2 processed / 0 skipped versus 1 processed / 1 skipped)
end with the identical completion log record, which carries only the
output directory — so the emitted summary cannot include the count of
documents processed or the count skipped/failed. -/
theorem c9_counterexample :
    countProcessed (synthesize exCollab 0 "outputs" [exDocB, exDocHello]) = 2 ∧
    countSkippedOrFailed (synthesize exCollab 0 "outputs" [exDocB, exDocHello]) = 0 ∧
    countProcessed (synthesize exCollab 0 "outputs" [exDocBlank, exDocHello]) = 1 ∧
    countSkippedOrFailed (synthesize exCollab 0 "outputs" [exDocBlank, exDocHello]) = 1 ∧
    (synthesize exCollab 0 "outputs" [exDocB, exDocHello]).logs.getLast? =
      (synthesize exCollab 0 "outputs" [exDocBlank, exDocHello]).logs.getLast? ∧
    (synthesize exCollab 0 "outputs" [exDocB, exDocHello]).logs.getLast? =
      some (.allDone "outputs") :=
  ⟨by rfl, by rfl, by rfl, by rfl, by rfl, by rfl⟩

/-- C9 (amended): a non-empty run in which no document raises a
collaborator error ends with a completion record naming the output
directory only; the counts of processed and skipped/failed documents are
not part of it, and the only count logged is the number of discovered
files, emitted before processing starts. -/
theorem c9_summary_names_output_dir (C : Collaborators) (se : Embedding) (od : String)
    (entries : List FsEntry)
    (hne : collect_txts entries ≠ [])
    (hok : (runDocs C se (collect_txts entries)).outcome = .ok ()) :
    (synthesize C se od entries).logs.getLast? = some (.allDone od) ∧
    (synthesize C se od entries).logs.head? =
      some (.foundCount (collect_txts entries).length) := by
  rw [synthesize_of_ok C se od entries hne hok]
  constructor
  · show (LogMsg.foundCount (collect_txts entries).length ::
      ((runDocs C se (collect_txts entries)).logs ++ [LogMsg.allDone od])).getLast? = _
    rw [← List.cons_append, List.getLast?_concat]
  · rfl

/-- C9 (amended) witness: a fully successful one-document run. -/
theorem c9_summary_names_output_dir_witness :
    collect_txts [exDocB] ≠ [] ∧
    (runDocs exCollab 0 (collect_txts [exDocB])).outcome = .ok () ∧
    ((synthesize exCollab 0 "outputs" [exDocB]).logs.getLast? =
      some (.allDone "outputs") ∧
     (synthesize exCollab 0 "outputs" [exDocB]).logs.head? =
      some (.foundCount (collect_txts [exDocB]).length)) :=
  ⟨by decide, by rfl,
   c9_summary_names_output_dir exCollab 0 "outputs" [exDocB] (by decide) (by rfl)⟩

/-- C10: the output path is derived from the file name alone: two
discovered documents from different subdirectories sharing a file name
map to the same output name, and after a run over both the output
directory holds the later document's audio at that name — the earlier
output is overwritten. -/
theorem c10_flat_output_collision (C : Collaborators) (se : Embedding) (od : String)
    (entries : List FsEntry) (d1 d2 : FsEntry)
    (hcoll : collect_txts entries = [d1, d2])
    (hname : d1.name = d2.name)
    (h1 : (process_file C se d1).outcome = .ok)
    (h2 : (process_file C se d2).outcome = .ok) :
    outputName d1 = outputName d2 ∧
    ∃ f1 f2,
      (process_file C se d1).writes = [{ name := outputName d1, data := f1 }] ∧
      (process_file C se d2).writes = [{ name := outputName d2, data := f2 }] ∧
      (synthesize C se od entries).writes =
        [{ name := outputName d1, data := f1 }, { name := outputName d2, data := f2 }] ∧
      ∀ dirState : DirState,
        dirLookup (outputName d1)
          (applyWrites dirState (synthesize C se od entries).writes) = some f2 := by
  have hout : outputName d1 = outputName d2 := by unfold outputName; rw [hname]
  obtain ⟨a1, s1, f1, _, _, _, heq1⟩ := process_file_ok_inv C se d1 h1
  obtain ⟨a2, s2, f2, _, _, _, heq2⟩ := process_file_ok_inv C se d2 h2
  have hne1 : ∀ e, (process_file C se d1).outcome ≠ .errored e := by
    rw [h1]; intro e hc; cases hc
  have hne2 : ∀ e, (process_file C se d2).outcome ≠ .errored e := by
    rw [h2]; intro e hc; cases hc
  have hrd : runDocs C se (collect_txts entries) =
      { outcome := .ok (),
        perDoc := process_file C se d1 :: process_file C se d2 :: [],
        writes := (process_file C se d1).writes ++ ((process_file C se d2).writes ++ []),
        logs := (process_file C se d1).logs ++ ((process_file C se d2).logs ++ []) } := by
    rw [hcoll, runDocs_cons_not_error C se d1 [d2] hne1,
      runDocs_cons_not_error C se d2 [] hne2]
    rfl
  have hne : collect_txts entries ≠ [] := by rw [hcoll]; exact List.cons_ne_nil d1 [d2]
  have hsh := synthesize_of_ok C se od entries hne (by rw [hrd])
  have hw : (synthesize C se od entries).writes =
      [{ name := outputName d1, data := f1 }, { name := outputName d2, data := f2 }] := by
    rw [hsh]
    show (runDocs C se (collect_txts entries)).writes = _
    rw [hrd]
    show (process_file C se d1).writes ++ ((process_file C se d2).writes ++ []) = _
    rw [heq1, heq2]
    rfl
  refine ⟨hout, f1, f2, by rw [heq1], by rw [heq2], hw, ?_⟩
  intro st
  rw [hw]
  show dirLookup (outputName d1)
    (applyWrite (applyWrite st { name := outputName d1, data := f1 })
      { name := outputName d2, data := f2 }) = some f2
  rw [hout]
  exact dirLookup_overwrite (outputName d2)
    (applyWrite st { name := outputName d2, data := f1 }) f2

/-- C10 witness: `hello.txt` at the top level and `deep/hello.txt`, both
successful; the run leaves the second document's audio at
`hello.wav`. -/
theorem c10_flat_output_collision_witness :
    collect_txts [exDocHello, exDocHelloDeep] = [exDocHello, exDocHelloDeep] ∧
    exDocHello.name = exDocHelloDeep.name ∧
    exDocHello.dirComponents ≠ exDocHelloDeep.dirComponents ∧
    (process_file exCollab 0 exDocHello).outcome = .ok ∧
    (process_file exCollab 0 exDocHelloDeep).outcome = .ok ∧
    (outputName exDocHello = outputName exDocHelloDeep ∧
     ∃ f1 f2,
      (process_file exCollab 0 exDocHello).writes =
        [{ name := outputName exDocHello, data := f1 }] ∧
      (process_file exCollab 0 exDocHelloDeep).writes =
        [{ name := outputName exDocHelloDeep, data := f2 }] ∧
      (synthesize exCollab 0 "outputs" [exDocHello, exDocHelloDeep]).writes =
        [{ name := outputName exDocHello, data := f1 },
         { name := outputName exDocHelloDeep, data := f2 }] ∧
      ∀ dirState : DirState,
        dirLookup (outputName exDocHello)
          (applyWrites dirState
            (synthesize exCollab 0 "outputs" [exDocHello, exDocHelloDeep]).writes) =
          some f2) :=
  ⟨by rfl, by rfl, by decide, by rfl, by rfl,
   c10_flat_output_collision exCollab 0 "outputs" [exDocHello, exDocHelloDeep]
     exDocHello exDocHelloDeep (by rfl) (by rfl) (by rfl) (by rfl)⟩

end VocalTwin
